import Mathlib

/-!
# Verification of the GSRTC demand-forecasting pipeline (`app.py`)

Shallow embedding of the Streamlit forecasting app.  Dates are modelled as
natural numbers (days since an arbitrary epoch), seat counts as integers, and
forecast values as rationals (the exact-arithmetic idealization of the
floating-point computation).  The SARIMA fit itself is a numerical
optimization; it is modelled as an opaque function `model : ℕ → List ℚ` that,
given a number of steps, returns that many forecast values — the contract of
`statsmodels`' `get_forecast(steps)` / `forecast(steps)`.
-/

namespace GsrtcApp

/-- One row of the aggregated daily dataframe `df_daily`.
`seatsDiff` models the `Seats_Booked_Diff` column, absent (`none`) until the
stationarity branch adds it.  From `app.py` line 83 / 93. -/
structure Row where
  date : ℕ
  seats : ℤ
  seatsDiff : Option ℤ := none
deriving DecidableEq, Repr

/-- `series.diff().dropna()`: the first-order difference `value[i] - value[i-1]`
with the first (undefined) entry dropped.  From `app.py` line 93. -/
def firstDiff (s : List ℤ) : List ℤ :=
  (s.tail.zip s).map (fun p => p.1 - p.2)

/-- `df_daily["Seats_Booked_Diff"] = df_daily["Seats_Booked"].diff().dropna()`:
pandas aligns the assignment by index, so row 0 keeps a missing value and every
later row `i` records `seats[i] - seats[i-1]` in the new column.  The
`Seats_Booked` column itself is untouched.  From `app.py` line 93. -/
def addDiffColumn : List Row → List Row
  | [] => []
  | r :: rest =>
      { r with seatsDiff := none } ::
        (rest.zip (r :: rest)).map
          (fun p => { p.1 with seatsDiff := some (p.1.seats - p.2.seats) })

/-- The stationarity branch of the Demand Forecasting page: when the ADF
p-value exceeds 0.05 the diff column is added, otherwise the dataframe passes
through unchanged.  The p-value is an input (the ADF test is an opaque
numerical routine).  From `app.py` lines 91-96. -/
def stationarityStep (pValue : ℚ) (dfDaily : List Row) : List Row :=
  if pValue > 1/20 then addDiffColumn dfDaily else dfDaily

/-- The series the downstream steps actually consume: every later access in
the code reads the `Seats_Booked` column of (the train/test slices of) the
post-branch dataframe — `train['Seats_Booked']` (line 108),
`test['Seats_Booked']` (line 115). -/
def downstreamSeats (pValue : ℚ) (dfDaily : List Row) : List ℤ :=
  (stationarityStep pValue dfDaily).map (·.seats)

/-- `train_size = int(len(df_daily) * 0.8)`: floor of 0.8·n, embedded as exact
natural division (the float product rounds to the same floor for realistic
sizes).  From `app.py` line 99. -/
def trainSize (n : ℕ) : ℕ :=
  n * 4 / 5

/-- `train, test = df_daily[:train_size], df_daily[train_size:]`: a pure index
partition, no shuffling and no error path.  From `app.py` line 100. -/
def splitSeries {α : Type} (s : List α) : List α × List α :=
  (s.take (trainSize s.length), s.drop (trainSize s.length))

/-- `df_daily['Date'].iloc[-1]`: the last date of the daily series (the code
only reaches this point with a non-empty dataframe).  From `app.py` line 125. -/
def lastDate (dfDaily : List Row) : ℕ :=
  (dfDaily.map (·.date)).getLastD 0

/-- `pd.date_range(start=last + 1 day, periods=steps)` with daily frequency:
`steps` consecutive dates beginning the day after `last`.
From `app.py` line 125. -/
def futureDates (last : ℕ) (steps : ℕ) : List ℕ :=
  (List.range steps).map (fun i => last + 1 + i)

/-- The 4-point scenario series of the spec: dates are days since 2023-01-01,
values the seats booked `[(2023-01-01,10),(2023-01-02,12),(2023-01-03,9),
(2023-01-04,15)]`. -/
def scenarioRows : List Row :=
  [⟨0, 10, none⟩, ⟨1, 12, none⟩, ⟨2, 9, none⟩, ⟨3, 15, none⟩]

/-- `addDiffColumn` never touches the `Seats_Booked` column. -/
theorem addDiffColumn_map_seats (rows : List Row) :
    (addDiffColumn rows).map (·.seats) = rows.map (·.seats) := by
  cases rows with
  | nil => rfl
  | cons r rest =>
      simp [addDiffColumn, List.map_map]
      induction rest generalizing r with
      | nil => rfl
      | cons a l ih =>
          simpa [List.zip_cons_cons] using ih a

/-- The post-branch working series is always the original seats column,
whatever the p-value: the diff lives only in the unused extra column. -/
theorem downstreamSeats_eq_original (pValue : ℚ) (dfDaily : List Row) :
    downstreamSeats pValue dfDaily = dfDaily.map (·.seats) := by
  unfold downstreamSeats stationarityStep
  split
  · exact addDiffColumn_map_seats dfDaily
  · rfl

/-- C1: the claim says that for an ADF p-value above 0.05 the first-order
difference becomes the working series consumed by the Splitter, the Forecast
Model and the Evaluator.  In the code the difference is only stored in a new
`Seats_Booked_Diff` column that no later line reads: on the scenario series
with p-value 0.2 the downstream working series is still the original
[10, 12, 9, 15] and not the difference [2, -3, 6], even though the diff column
was filled — contradicting the claim and the code's own "Applied differencing"
message. -/
theorem c1_differencing_never_consumed_downstream :
    downstreamSeats (1/5) scenarioRows = [10, 12, 9, 15] ∧
    firstDiff (scenarioRows.map (·.seats)) = [2, -3, 6] ∧
    downstreamSeats (1/5) scenarioRows ≠ firstDiff (scenarioRows.map (·.seats)) ∧
    (stationarityStep (1/5) scenarioRows).map (·.seatsDiff) =
      [none, some 2, some (-3), some 6] := by
  have hc : (1:ℚ)/5 > 1/20 := by norm_num
  have hif : stationarityStep (1/5) scenarioRows = addDiffColumn scenarioRows := by
    unfold stationarityStep
    rw [if_pos hc]
  have hd : downstreamSeats (1/5) scenarioRows = [10, 12, 9, 15] := by
    unfold downstreamSeats
    rw [hif]
    decide
  refine ⟨hd, by decide, ?_, ?_⟩
  · rw [hd]; decide
  · unfold stationarityStep
    rw [if_pos hc]
    decide

/-- `trainSize` never exceeds the series length. -/
theorem trainSize_le (n : ℕ) : trainSize n ≤ n := by
  rw [trainSize]; omega

/-- C2: on every working series of length n ≥ 2 the Splitter yields a train
prefix of length ⌊0.8·n⌋, a test suffix of length n − ⌊0.8·n⌋, the two parts
are the contiguous take/drop partition whose concatenation reproduces the
series in order; on the 4-point scenario series train is the first 3 points
and test the last 1. -/
theorem c2_splitter_partition (s : List Row) (h : 2 ≤ s.length) :
    (splitSeries s).1.length = s.length * 4 / 5 ∧
    (splitSeries s).2.length = s.length - s.length * 4 / 5 ∧
    (splitSeries s).1 = s.take (s.length * 4 / 5) ∧
    (splitSeries s).2 = s.drop (s.length * 4 / 5) ∧
    (splitSeries s).1 ++ (splitSeries s).2 = s ∧
    splitSeries scenarioRows = (scenarioRows.take 3, scenarioRows.drop 3) := by
  refine ⟨?_, ?_, rfl, rfl, ?_, by decide⟩
  · simp only [splitSeries, trainSize, List.length_take]
    omega
  · simp [splitSeries, trainSize]
  · simp [splitSeries]

/-- Witness for C2 at the scenario series. -/
theorem c2_splitter_partition_witness :
    2 ≤ scenarioRows.length ∧
    ((splitSeries scenarioRows).1.length = scenarioRows.length * 4 / 5 ∧
     (splitSeries scenarioRows).2.length =
       scenarioRows.length - scenarioRows.length * 4 / 5 ∧
     (splitSeries scenarioRows).1 = scenarioRows.take (scenarioRows.length * 4 / 5) ∧
     (splitSeries scenarioRows).2 = scenarioRows.drop (scenarioRows.length * 4 / 5) ∧
     (splitSeries scenarioRows).1 ++ (splitSeries scenarioRows).2 = scenarioRows ∧
     splitSeries scenarioRows = (scenarioRows.take 3, scenarioRows.drop 3)) :=
  ⟨by decide, c2_splitter_partition scenarioRows (by decide)⟩

/-- C4 (counterexample): on a working series of length 1 — where the claim
demands a failure with `InsufficientDataError` — the code's splitter succeeds
and returns a split whose train partition is empty. -/
theorem c4_counterexample :
    splitSeries [(⟨0, 10, none⟩ : Row)] = ([], [⟨0, 10, none⟩]) := by decide

/-- C4 (amended): the code's Splitter is a total function with no error path:
it always returns the take/drop partition; the train partition is empty
exactly when n ≤ 1, the test partition is empty exactly when n = 0, and both
partitions are non-empty exactly when n ≥ 2 — degenerate inputs silently
produce an empty partition instead of failing. -/
theorem c4_splitter_never_fails (s : List Row) :
    ((splitSeries s).1 = [] ↔ s.length ≤ 1) ∧
    ((splitSeries s).2 = [] ↔ s.length = 0) ∧
    ((splitSeries s).1 ≠ [] ∧ (splitSeries s).2 ≠ [] ↔ 2 ≤ s.length) := by
  have h1 : (splitSeries s).1 = [] ↔ s.length ≤ 1 := by
    rw [splitSeries]
    simp only [← List.length_eq_zero, List.length_take, trainSize]
    omega
  have h2 : (splitSeries s).2 = [] ↔ s.length = 0 := by
    rw [splitSeries]
    simp only [← List.length_eq_zero, List.length_drop, trainSize]
    omega
  refine ⟨h1, h2, ?_⟩
  constructor
  · rintro ⟨ha, _⟩
    by_contra hcon
    exact ha (h1.mpr (by omega))
  · intro hlen
    refine ⟨fun hh => ?_, fun hh => ?_⟩
    · have := h1.mp hh; omega
    · have := h2.mp hh; omega

/-- `sarima_result.get_forecast(steps)` / `sarima_result.forecast(steps)`:
the fitted SARIMA model is an opaque numerical object; all the code relies on
is that asking it for `steps` forecast values yields exactly that many values,
computed from the fitted parameters alone.  Modelled as a function from the
step count to the predicted mean values.  From `app.py` lines 111 and 122. -/
def forecastSteps (model : ℕ → List ℚ) (steps : ℕ) : List ℚ :=
  model steps

/-- Index lookup into the generated future dates. -/
theorem futureDates_getD (last h i : ℕ) (hi : i < h) :
    (futureDates last h).getD i 0 = last + 1 + i := by
  simp [futureDates, List.getD_eq_getElem?_getD, List.getElem?_map,
    List.getElem?_range hi]

/-- C3: for every fitted model honouring the library contract, every horizon
7 ≤ h ≤ 90 and every non-empty daily series, the future forecast has exactly
h predicted values and h dates, the first future date is the day after the
series's last date, and consecutive future dates differ by exactly one day. -/
theorem c3_future_forecast_dates (rows : List Row) (hne : rows ≠ [])
    (model : ℕ → List ℚ) (hm : ∀ k, (model k).length = k)
    (h : ℕ) (h7 : 7 ≤ h) (h90 : h ≤ 90) :
    (forecastSteps model h).length = h ∧
    (futureDates (lastDate rows) h).length = h ∧
    (futureDates (lastDate rows) h).head? = some (lastDate rows + 1) ∧
    (∀ i, i + 1 < h →
      (futureDates (lastDate rows) h).getD (i + 1) 0 =
        (futureDates (lastDate rows) h).getD i 0 + 1) := by
  refine ⟨hm h, ?_, ?_, ?_⟩
  · simp [futureDates]
  · obtain ⟨k, rfl⟩ : ∃ k, h = k + 1 := ⟨h - 1, by omega⟩
    simp [futureDates, List.range_succ_eq_map]
  · intro i hi
    rw [futureDates_getD _ _ _ hi, futureDates_getD _ _ _ (by omega)]
    omega

/-- Witness for C3 at the scenario series, a dummy model and horizon 7. -/
theorem c3_future_forecast_dates_witness :
    scenarioRows ≠ [] ∧ (∀ k, (List.replicate k (0:ℚ)).length = k) ∧
    7 ≤ 7 ∧ 7 ≤ 90 ∧
    ((forecastSteps (fun k => List.replicate k (0:ℚ)) 7).length = 7 ∧
     (futureDates (lastDate scenarioRows) 7).length = 7 ∧
     (futureDates (lastDate scenarioRows) 7).head? = some (lastDate scenarioRows + 1) ∧
     (∀ i, i + 1 < 7 →
       (futureDates (lastDate scenarioRows) 7).getD (i + 1) 0 =
         (futureDates (lastDate scenarioRows) 7).getD i 0 + 1)) :=
  ⟨by decide, fun k => List.length_replicate k 0, by decide, by decide,
    c3_future_forecast_dates scenarioRows (by decide)
      (fun k => List.replicate k (0:ℚ)) (fun k => List.length_replicate k 0)
      7 (by decide) (by decide)⟩

/-- Models `st.slider("📅 Select Forecast Duration (Days)", min_value=7,
max_value=90, value=30)`: a Streamlit slider only ever yields a value inside
[min, max] — the widget offers no out-of-range position, and an out-of-range
programmatic default raises `StreamlitAPIException`; a value is never clamped
to the nearest bound.  From `app.py` line 119. -/
def sliderSelect (minv maxv requested : ℤ) : Option ℤ :=
  if minv ≤ requested ∧ requested ≤ maxv then some requested else none

/-- The horizon request of the Demand Forecasting page: the slider bounds are
the literals 7 and 90.  From `app.py` line 119. -/
def horizonRequest (requested : ℤ) : Option ℤ :=
  sliderSelect 7 90 requested

/-- `sarima_result.forecast(steps=future_steps)`: the future forecast is
computed only from a horizon that the slider accepted.
From `app.py` lines 119-122. -/
def futureForecast (model : ℕ → List ℚ) (requested : ℤ) : Option (List ℚ) :=
  (horizonRequest requested).map (fun h => forecastSteps model h.toNat)

/-- C5: an in-range horizon (7 ≤ h ≤ 90) is accepted exactly as given; an
out-of-range horizon is rejected and no future forecast is produced; any
accepted value equals the requested one — nothing is ever clamped. -/
theorem c5_horizon_validation (requested : ℤ) (model : ℕ → List ℚ) :
    ((7 ≤ requested ∧ requested ≤ 90) → horizonRequest requested = some requested) ∧
    ((requested < 7 ∨ 90 < requested) →
      horizonRequest requested = none ∧ futureForecast model requested = none) ∧
    (∀ h, horizonRequest requested = some h → h = requested) := by
  refine ⟨fun hin => ?_, fun hout => ?_, fun h hacc => ?_⟩
  · simp [horizonRequest, sliderSelect, hin.1, hin.2]
  · have hnone : horizonRequest requested = none := by
      simp only [horizonRequest, sliderSelect, ite_eq_right_iff]
      intro hc
      omega
    exact ⟨hnone, by simp [futureForecast, hnone]⟩
  · unfold horizonRequest sliderSelect at hacc
    split at hacc
    · exact (Option.some_injective _ hacc).symm
    · cases hacc

/-- Witness for C5: horizon 91 is rejected with no forecast; 30 is accepted
as given. -/
theorem c5_horizon_validation_witness :
    ((91:ℤ) < 7 ∨ (90:ℤ) < 91) ∧
    (horizonRequest 91 = none ∧
      futureForecast (fun k => List.replicate k (0:ℚ)) 91 = none) ∧
    ((7:ℤ) ≤ 30 ∧ (30:ℤ) ≤ 90) ∧ horizonRequest 30 = some 30 :=
  ⟨by decide,
   (c5_horizon_validation 91 (fun k => List.replicate k (0:ℚ))).2.1 (by decide),
   by decide,
   (c5_horizon_validation 30 (fun k => List.replicate k (0:ℚ))).1 (by decide)⟩

/-- Witness for C4's amended statement at a length-1 series. -/
theorem c4_splitter_never_fails_witness :
    ((splitSeries [(⟨0, 10, none⟩ : Row)]).1 = [] ↔
       ([(⟨0, 10, none⟩ : Row)] : List Row).length ≤ 1) ∧
    ((splitSeries [(⟨0, 10, none⟩ : Row)]).2 = [] ↔
       ([(⟨0, 10, none⟩ : Row)] : List Row).length = 0) ∧
    ((splitSeries [(⟨0, 10, none⟩ : Row)]).1 ≠ [] ∧
       (splitSeries [(⟨0, 10, none⟩ : Row)]).2 ≠ [] ↔
       2 ≤ ([(⟨0, 10, none⟩ : Row)] : List Row).length) :=
  c4_splitter_never_fails [⟨0, 10, none⟩]

/-- The element-wise squared errors between true and predicted values. -/
def squaredErrors (yTrue yPred : List ℚ) : List ℚ :=
  (yTrue.zip yPred).map (fun p => (p.1 - p.2) ^ 2)

/-- The mean of the squared errors (exact-arithmetic value of
`sklearn.metrics.mean_squared_error(y_true, y_pred)` on equal-length inputs).
From `app.py` line 115. -/
def mseVal (yTrue yPred : List ℚ) : ℚ :=
  (squaredErrors yTrue yPred).sum / (yTrue.length : ℚ)

/-- `sklearn.metrics.mean_squared_error(y_true, y_pred)` checks that its two
inputs have the same length and raises otherwise — the condition the spec
calls `LengthMismatchError`.  From `app.py` line 115. -/
def meanSquaredError (yTrue yPred : List ℚ) : Except String ℚ :=
  if yTrue.length = yPred.length then Except.ok (mseVal yTrue yPred)
  else Except.error "LengthMismatchError"

/-- `np.sqrt(mean_squared_error(...))`: the root-mean-square error.
From `app.py` line 115. -/
noncomputable def rmse (yTrue yPred : List ℚ) : ℝ :=
  Real.sqrt ((mseVal yTrue yPred : ℚ) : ℝ)

/-- Lines 111-115 of `app.py`: forecast the held-out window with
`sarima_result.get_forecast(steps=len(test))` — the fitted model is asked for
exactly `len(test)` values, and receives nothing but that count — and score
the prediction with the RMSE against the true test values. -/
noncomputable def evaluator (model : ℕ → List ℚ) (test : List ℚ) : List ℚ × ℝ :=
  (forecastSteps model test.length, rmse test (forecastSteps model test.length))

/-- Every squared error is non-negative. -/
theorem squaredErrors_sum_nonneg (yTrue yPred : List ℚ) :
    0 ≤ (squaredErrors yTrue yPred).sum := by
  refine List.sum_nonneg ?_
  intro x hx
  obtain ⟨p, _, rfl⟩ := List.mem_map.mp hx
  positivity

/-- The mean squared error is non-negative. -/
theorem mseVal_nonneg (yTrue yPred : List ℚ) : 0 ≤ mseVal yTrue yPred :=
  div_nonneg (squaredErrors_sum_nonneg yTrue yPred) (Nat.cast_nonneg _)

/-- Unfolding equation for `squaredErrors` on cons cells. -/
theorem squaredErrors_cons (a b : ℚ) (as bs : List ℚ) :
    squaredErrors (a :: as) (b :: bs) = (a - b) ^ 2 :: squaredErrors as bs := rfl

/-- On equal-length inputs the squared errors sum to zero exactly when the two
lists coincide. -/
theorem squaredErrors_sum_eq_zero_iff (yTrue yPred : List ℚ)
    (hlen : yTrue.length = yPred.length) :
    (squaredErrors yTrue yPred).sum = 0 ↔ yTrue = yPred := by
  induction yTrue generalizing yPred with
  | nil =>
      cases yPred with
      | nil => simp [squaredErrors]
      | cons b bs => simp at hlen
  | cons a as ih =>
      cases yPred with
      | nil => simp at hlen
      | cons b bs =>
          have hlen' : as.length = bs.length := by simpa using hlen
          have hsq : (0:ℚ) ≤ (a - b) ^ 2 := by positivity
          have hrest := squaredErrors_sum_nonneg as bs
          rw [squaredErrors_cons, List.sum_cons]
          constructor
          · intro hz
            have h0 : (a - b) ^ 2 = 0 ∧ (squaredErrors as bs).sum = 0 :=
              (add_eq_zero_iff_of_nonneg hsq hrest).mp hz
            have hab : a = b := by
              have := pow_eq_zero_iff (n := 2) (by norm_num) |>.mp h0.1
              linarith [sub_eq_zero.mp this]
            have htail : as = bs := (ih bs hlen').mp h0.2
            rw [hab, htail]
          · rintro h
            injection h with h1 h2
            subst h1; subst h2
            have h0 : (squaredErrors as as).sum = 0 := (ih as rfl).mpr rfl
            rw [h0]
            simp

/-- C7: for every model honouring the library contract and every non-empty
test partition, the evaluation forecast has exactly |test| entries, depends on
the test partition only through its length (never its true values), and the
RMSE score is non-negative and vanishes exactly when the prediction equals the
test values. -/
theorem c7_evaluator_rmse (model : ℕ → List ℚ) (test : List ℚ)
    (hm : ∀ k, (model k).length = k) (hne : test ≠ []) :
    (evaluator model test).1.length = test.length ∧
    (∀ t' : List ℚ, t'.length = test.length →
      (evaluator model t').1 = (evaluator model test).1) ∧
    0 ≤ (evaluator model test).2 ∧
    ((evaluator model test).2 = 0 ↔ (evaluator model test).1 = test) := by
  have hlen : (forecastSteps model test.length).length = test.length :=
    hm test.length
  refine ⟨hlen, ?_, Real.sqrt_nonneg _, ?_⟩
  · intro t' ht'
    simp [evaluator, forecastSteps, ht']
  · have hnz : (test.length : ℚ) ≠ 0 := by
      have : test.length ≠ 0 := fun h => hne (List.length_eq_zero.mp h)
      exact_mod_cast this
    have hmse : mseVal test (forecastSteps model test.length) = 0 ↔
        test = forecastSteps model test.length := by
      rw [mseVal, div_eq_zero_iff]
      rw [squaredErrors_sum_eq_zero_iff _ _ hlen.symm]
      constructor
      · rintro (h | h)
        · exact h
        · exact absurd h hnz
      · exact Or.inl
    constructor
    · intro h0
      have hle : ((mseVal test (forecastSteps model test.length) : ℚ) : ℝ) ≤ 0 :=
        Real.sqrt_eq_zero'.mp h0
      have hge : (0:ℚ) ≤ mseVal test (forecastSteps model test.length) :=
        mseVal_nonneg _ _
      have : mseVal test (forecastSteps model test.length) = 0 := by
        exact_mod_cast le_antisymm (by exact_mod_cast hle) hge
      exact (hmse.mp this).symm
    · intro hpe
      have : mseVal test (forecastSteps model test.length) = 0 :=
        hmse.mpr hpe.symm
      simp [evaluator, rmse, this]

/-- Witness for C7 at a concrete test partition and a model that is exact on
it, checking that the score is then zero. -/
theorem c7_evaluator_rmse_witness :
    (∀ k, ((fun k => List.replicate k (0:ℚ)) k).length = k) ∧
    ([(0:ℚ), 0] : List ℚ) ≠ [] ∧
    ((evaluator (fun k => List.replicate k (0:ℚ)) [(0:ℚ), 0]).1.length =
       ([(0:ℚ), 0] : List ℚ).length ∧
     (∀ t' : List ℚ, t'.length = ([(0:ℚ), 0] : List ℚ).length →
       (evaluator (fun k => List.replicate k (0:ℚ)) t').1 =
         (evaluator (fun k => List.replicate k (0:ℚ)) [(0:ℚ), 0]).1) ∧
     0 ≤ (evaluator (fun k => List.replicate k (0:ℚ)) [(0:ℚ), 0]).2 ∧
     ((evaluator (fun k => List.replicate k (0:ℚ)) [(0:ℚ), 0]).2 = 0 ↔
       (evaluator (fun k => List.replicate k (0:ℚ)) [(0:ℚ), 0]).1 = [(0:ℚ), 0])) :=
  ⟨fun k => List.length_replicate k 0, by decide,
    c7_evaluator_rmse (fun k => List.replicate k (0:ℚ)) [(0:ℚ), 0]
      (fun k => List.length_replicate k 0) (by decide)⟩

/-- C9: because the evaluation forecast is requested with
`steps = len(test)`, its predicted mean always has the test partition's
length, the equal-length precondition of the RMSE computation holds, and the
length check never takes the `LengthMismatchError` branch. -/
theorem c9_length_mismatch_unreachable (model : ℕ → List ℚ) (test : List ℚ)
    (hm : ∀ k, (model k).length = k) :
    (forecastSteps model test.length).length = test.length ∧
    meanSquaredError test (forecastSteps model test.length) =
      Except.ok (mseVal test (forecastSteps model test.length)) := by
  have hlen : test.length = (forecastSteps model test.length).length :=
    (hm test.length).symm
  refine ⟨hlen.symm, ?_⟩
  rw [meanSquaredError, if_pos hlen]

/-- Witness for C9 at a concrete model and test partition. -/
theorem c9_length_mismatch_unreachable_witness :
    (∀ k, ((fun k => List.replicate k (0:ℚ)) k).length = k) ∧
    ((forecastSteps (fun k => List.replicate k (0:ℚ)) ([(1:ℚ), 2] : List ℚ).length).length =
       ([(1:ℚ), 2] : List ℚ).length ∧
     meanSquaredError [(1:ℚ), 2]
       (forecastSteps (fun k => List.replicate k (0:ℚ)) ([(1:ℚ), 2] : List ℚ).length) =
       Except.ok (mseVal [(1:ℚ), 2]
         (forecastSteps (fun k => List.replicate k (0:ℚ)) ([(1:ℚ), 2] : List ℚ).length))) :=
  ⟨fun k => List.length_replicate k 0,
    c9_length_mismatch_unreachable (fun k => List.replicate k (0:ℚ)) [(1:ℚ), 2]
      (fun k => List.length_replicate k 0)⟩

/-- Total seats booked on date `d` over a list of (Date, Seats_Booked) raw
records: the 'sum' aggregation of the groupby. -/
def sumSeatsOn (rows : List (ℕ × ℤ)) (d : ℕ) : ℤ :=
  ((rows.filter (fun r => r.1 == d)).map Prod.snd).sum

/-- `df.groupby('Date').agg({'Seats_Booked': 'sum'}).reset_index()
.sort_values(by='Date')`: one output row per distinct input date, carrying the
sum of Seats_Booked over the input rows with that date, sorted ascending by
date.  From `app.py` line 83. -/
def aggregateDaily (rows : List (ℕ × ℤ)) : List (ℕ × ℤ) :=
  ((rows.map Prod.fst).toFinset.sort (· ≤ ·)).map (fun d => (d, sumSeatsOn rows d))

/-- Filtering a duplicate-free list for one of its members leaves exactly that
member. -/
theorem filter_beq_of_nodup {l : List ℕ} (hl : l.Nodup) {d : ℕ} (hd : d ∈ l) :
    l.filter (fun x => x == d) = [d] := by
  induction l with
  | nil => cases hd
  | cons a t ih =>
      obtain ⟨hnmem, hnd⟩ := List.nodup_cons.mp hl
      rcases List.mem_cons.mp hd with rfl | hmem
      · have ht : t.filter (fun x => x == d) = [] := by
          rw [List.filter_eq_nil_iff]
          intro x hx
          simp only [beq_iff_eq]
          exact fun he => hnmem (he ▸ hx)
        simp [List.filter_cons, ht]
      · have hne : (a == d) = false := by
          simp only [beq_eq_false_iff_ne, ne_eq]
          exact fun he => hnmem (he ▸ hmem)
        simp [List.filter_cons, hne, ih hnd hmem]

/-- The date column of the aggregated output is the sorted list of distinct
input dates. -/
theorem aggregateDaily_map_fst (rows : List (ℕ × ℤ)) :
    (aggregateDaily rows).map Prod.fst =
      (rows.map Prod.fst).toFinset.sort (· ≤ ·) := by
  rw [aggregateDaily, List.map_map]
  rw [show (Prod.fst ∘ fun d => (d, sumSeatsOn rows d)) = id from rfl]
  exact List.map_id _

/-- Aggregating the aggregated series recomputes the same per-date sums. -/
theorem sumSeatsOn_aggregateDaily (rows : List (ℕ × ℤ)) (d : ℕ)
    (hd : d ∈ (rows.map Prod.fst).toFinset) :
    sumSeatsOn (aggregateDaily rows) d = sumSeatsOn rows d := by
  have hnodup : ((rows.map Prod.fst).toFinset.sort (· ≤ ·)).Nodup :=
    Finset.sort_nodup _ _
  have hmem : d ∈ (rows.map Prod.fst).toFinset.sort (· ≤ ·) :=
    (Finset.mem_sort _).mpr hd
  rw [sumSeatsOn, aggregateDaily, List.filter_map]
  have hp : ((fun r : ℕ × ℤ => r.1 == d) ∘ fun d => (d, sumSeatsOn rows d)) =
      fun x => x == d := rfl
  rw [hp, filter_beq_of_nodup hnodup hmem]
  simp

/-- C8: for every raw record list, the aggregated daily series has strictly
increasing dates (hence each at most once), each entry carries the sum of
Seats_Booked over all input rows with its date, its date set is exactly the
input's date set, and aggregating a second time yields the same output. -/
theorem c8_aggregator_sorted_sum_idem (rows : List (ℕ × ℤ)) :
    ((aggregateDaily rows).map Prod.fst).Pairwise (· < ·) ∧
    (∀ e ∈ aggregateDaily rows, e.2 = sumSeatsOn rows e.1) ∧
    (∀ d : ℕ, d ∈ (aggregateDaily rows).map Prod.fst ↔ d ∈ rows.map Prod.fst) ∧
    aggregateDaily (aggregateDaily rows) = aggregateDaily rows := by
  refine ⟨?_, ?_, ?_, ?_⟩
  · rw [aggregateDaily_map_fst]
    exact Finset.sort_sorted_lt _
  · intro e he
    obtain ⟨d, _, rfl⟩ := List.mem_map.mp he
    rfl
  · intro d
    rw [aggregateDaily_map_fst, Finset.mem_sort, List.mem_toFinset]
  · conv_lhs => rw [aggregateDaily]
    rw [aggregateDaily_map_fst, Finset.sort_toFinset]
    conv_rhs => rw [aggregateDaily]
    refine List.map_congr_left ?_
    intro d hd
    rw [sumSeatsOn_aggregateDaily rows d ((Finset.mem_sort _).mp hd)]

/-- Witness for C8 at a concrete record list with a duplicated date. -/
theorem c8_aggregator_sorted_sum_idem_witness :
    ((aggregateDaily [(1, 5), (0, 3), (1, 2)]).map Prod.fst).Pairwise (· < ·) ∧
    (∀ e ∈ aggregateDaily [(1, 5), (0, 3), (1, 2)],
      e.2 = sumSeatsOn [(1, 5), (0, 3), (1, 2)] e.1) ∧
    (∀ d : ℕ, d ∈ (aggregateDaily [(1, 5), (0, 3), (1, 2)]).map Prod.fst ↔
      d ∈ ([(1, 5), (0, 3), (1, 2)] : List (ℕ × ℤ)).map Prod.fst) ∧
    aggregateDaily (aggregateDaily [(1, 5), (0, 3), (1, 2)]) =
      aggregateDaily [(1, 5), (0, 3), (1, 2)] :=
  c8_aggregator_sorted_sum_idem [(1, 5), (0, 3), (1, 2)]

/-- A CSV file: a header naming the columns in file order, and data rows whose
cells are positionally aligned with that header.  The durable store
`updated_data.csv` and an uploaded file are both of this shape. -/
structure CsvFile where
  header : List String
  rows : List (List String)
deriving DecidableEq, Repr

/-- The Upload Data page, `app.py` lines 154-160: when
`set(new_data.columns) == set(df.columns)` the uploaded rows are appended to
the store by `new_data.to_csv(DATA_PATH, mode='a', header=False, index=False)`
— each row written positionally in the uploaded file's own column order, with
no header line — and success is reported; otherwise an error is shown
("Column mismatch!") and the store file is not written at all. -/
def uploadData (store uploaded : CsvFile) : CsvFile × Bool :=
  if uploaded.header.toFinset = store.header.toFinset then
    ({ header := store.header, rows := store.rows ++ uploaded.rows }, true)
  else
    (store, false)

/-- The value a reader of a CSV file assigns to column `c` in a data row:
the cell at the position `c` occupies in the file's header. -/
def cellUnder (header : List String) (c : String) (row : List String) : Option String :=
  (header.findIdx? (· == c)).bind (fun i => row.get? i)

/-- The store's schema: the six columns loaded from `updated_data.csv`
(`app.py` lines 15-17). -/
def storeColumns : List String :=
  ["Date", "Route_ID", "Seats_Booked", "Fuel_Consumption_Liters",
   "Total_Seats", "Ticket_Price"]

/-- A one-row durable store over the real schema. -/
def exStore : CsvFile :=
  ⟨storeColumns, [["01-01-2023", "R1", "10", "5", "40", "500"]]⟩

/-- An upload whose column set misses `Ticket_Price`. -/
def exUploadMissing : CsvFile :=
  ⟨["Date", "Route_ID", "Seats_Booked", "Fuel_Consumption_Liters", "Total_Seats"],
   [["02-01-2023", "R2", "12", "6", "40"]]⟩

/-- An upload with the same column set as the store but with `Date` and
`Ticket_Price` swapped; its row carries ticket price 450 and date 02-01-2023
in its own column order. -/
def exUploadPermuted : CsvFile :=
  ⟨["Ticket_Price", "Route_ID", "Seats_Booked", "Fuel_Consumption_Liters",
    "Total_Seats", "Date"],
   [["450", "R2", "12", "6", "40", "02-01-2023"]]⟩

/-- C6: rows are appended exactly when the uploaded column set equals the
store's; a mismatching upload is rejected and the store is left unchanged —
in particular an upload missing the `Ticket_Price` column. -/
theorem c6_upload_schema_guard (store uploaded : CsvFile) :
    ((uploadData store uploaded).2 = true ↔
       uploaded.header.toFinset = store.header.toFinset) ∧
    ((uploadData store uploaded).2 = true →
       (uploadData store uploaded).1.rows = store.rows ++ uploaded.rows) ∧
    ((uploadData store uploaded).2 = false → (uploadData store uploaded).1 = store) ∧
    uploadData exStore exUploadMissing = (exStore, false) := by
  by_cases hm : uploaded.header.toFinset = store.header.toFinset <;>
    simp [uploadData, hm] <;> decide

/-- Witness for C6 at the concrete store and the permuted-column upload. -/
theorem c6_upload_schema_guard_witness :
    ((uploadData exStore exUploadPermuted).2 = true ↔
       exUploadPermuted.header.toFinset = exStore.header.toFinset) ∧
    ((uploadData exStore exUploadPermuted).2 = true →
       (uploadData exStore exUploadPermuted).1.rows =
         exStore.rows ++ exUploadPermuted.rows) ∧
    ((uploadData exStore exUploadPermuted).2 = false →
       (uploadData exStore exUploadPermuted).1 = exStore) ∧
    uploadData exStore exUploadMissing = (exStore, false) :=
  c6_upload_schema_guard exStore exUploadPermuted

/-- C10: an upload whose column set equals the store's but in a different
order is accepted, and its rows are appended positionally in the uploaded
file's own column order; concretely, the permuted upload is accepted and the
store afterwards reads "450" — the uploaded file's Ticket_Price — under its
`Date` column, not the uploaded date "02-01-2023". -/
theorem c10_permuted_columns_misaligned (store uploaded : CsvFile)
    (hperm : uploaded.header.toFinset = store.header.toFinset) :
    (uploadData store uploaded).2 = true ∧
    (uploadData store uploaded).1.header = store.header ∧
    (uploadData store uploaded).1.rows = store.rows ++ uploaded.rows ∧
    ((uploadData exStore exUploadPermuted).1.rows =
       [["01-01-2023", "R1", "10", "5", "40", "500"],
        ["450", "R2", "12", "6", "40", "02-01-2023"]] ∧
     cellUnder storeColumns "Date" ["450", "R2", "12", "6", "40", "02-01-2023"] =
       some "450" ∧
     cellUnder exUploadPermuted.header "Date"
       ["450", "R2", "12", "6", "40", "02-01-2023"] = some "02-01-2023") := by
  refine ⟨?_, ?_, ?_, by decide, by decide, by decide⟩ <;> simp [uploadData, hperm]

/-- Witness for C10 at the concrete permuted upload. -/
theorem c10_permuted_columns_misaligned_witness :
    exUploadPermuted.header.toFinset = exStore.header.toFinset ∧
    ((uploadData exStore exUploadPermuted).2 = true ∧
     (uploadData exStore exUploadPermuted).1.header = exStore.header ∧
     (uploadData exStore exUploadPermuted).1.rows =
       exStore.rows ++ exUploadPermuted.rows ∧
     ((uploadData exStore exUploadPermuted).1.rows =
        [["01-01-2023", "R1", "10", "5", "40", "500"],
         ["450", "R2", "12", "6", "40", "02-01-2023"]] ∧
      cellUnder storeColumns "Date" ["450", "R2", "12", "6", "40", "02-01-2023"] =
        some "450" ∧
      cellUnder exUploadPermuted.header "Date"
        ["450", "R2", "12", "6", "40", "02-01-2023"] = some "02-01-2023")) :=
  ⟨by decide, c10_permuted_columns_misaligned exStore exUploadPermuted (by decide)⟩

end GsrtcApp
